import Mathlib

/-!
Verification of the Talend migration analysis engine
(`src/streamlit_analysis.py`).

The engine is a pure computation: raw `(file, component_type, unique_name)`
rows are grouped per file, each file is classified by size, complexity and
database usage, given a complexity score, and given an effort estimate from
user-supplied parameters.  Python sets of component-type strings are modelled
as lists with decidable membership; the pandas `groupby` aggregation is
modelled as an explicit fold by key; pandas `.map` with a dict (which yields
NaN on a missing key) is modelled with `Option`; floating-point arithmetic in
the effort calculator is modelled with `ℚ`.  Streamlit `number_input` widgets
reject values below their `min_value`, which is modelled as an `Except`
returning an error; the schema check `expected_columns` with `st.stop()` is
modelled the same way.
-/

/-- One raw input row of the CSV: columns `file`, `component_type`,
`unique_name`. -/
structure ComponentRow where
  file : String
  component_type : String
  unique_name : String
deriving Repr, DecidableEq

/-- Distinct values of a list in order of first occurrence, as produced by
pandas `Series.unique()`.  The accumulator records values already seen. -/
def uniqueAux : List String → List String → List String
  | [], _ => []
  | x :: xs, seen =>
      if x ∈ seen then uniqueAux xs seen else x :: uniqueAux xs (x :: seen)

/-- Model of `list(x.unique())` from the groupby aggregation. -/
def uniqueList (l : List String) : List String :=
  uniqueAux l []

/-- One row of the `file_analysis` dataframe after
`df.groupby('file').agg(...)`: per file, the row count, the distinct
component types, and the count of `unique_name` entries. -/
structure FileAnalysisRecord where
  file : String
  component_count : Nat
  component_types : List String
  unique_components : Nat
deriving Repr, DecidableEq

/-- Model of `df.groupby('file').agg({'component_type': ['count', lambda x: list(x.unique())],
'unique_name': 'count'})`: one record per distinct `file` value; counts are the
group sizes, `component_types` the distinct component types of the group. -/
def file_analysis (rows : List ComponentRow) : List FileAnalysisRecord :=
  (uniqueList (rows.map (fun r => r.file))).map (fun f =>
    { file := f
      component_count := (rows.filter (fun r => r.file = f)).length
      component_types :=
        uniqueList ((rows.filter (fun r => r.file = f)).map
          (fun r => r.component_type))
      unique_components := (rows.filter (fun r => r.file = f)).length })

/-- The `snowflake_components` set from the source. -/
def snowflake_components : List String :=
  ["tMap", "tSnowflakeCommit", "tSnowflakeClose",
   "tSnowflakeConnection", "tSnowflakeInput", "tSnowflakeOutput"]

/-- The `utility_components` set from the source. -/
def utility_components : List String :=
  ["tDie", "tSnowflakeConnection", "tSnowflakeClose", "tWarn"]

/-- The `high_complexity_components` set from the source. -/
def high_complexity_components : List String :=
  ["tRunJob", "tJavaRow", "tJava", "tPerlRow", "tPython"]

/-- The `db2_components` set from the source. -/
def db2_components : List String :=
  ["tDB2Input", "tDB2Output", "tDB2Connection", "tDB2Close",
   "tDB2Commit", "tDB2Rollback", "tDB2Row", "tDB2BulkExec",
   "tDB2TableList", "tDB2SCD"]

/-- The `oracle_components` set from the source. -/
def oracle_components : List String :=
  ["tOracleInput", "tOracleOutput", "tOracleConnection", "tOracleClose",
   "tOracleCommit", "tOracleRollback", "tOracleRow", "tOracleBulkExec",
   "tOracleTableList", "tOracleSCD"]

/-- The function `categorize_size(count)` from the source. -/
def categorize_size (count : Int) : String :=
  if count < 10 then "Small"
  else if count < 20 then "Medium"
  else if count < 40 then "Large"
  else "XLarge"

/-- The function `calculate_complexity(component_types)` from the source:
remove utility components, then apply the low / low-if-snowflake-subset /
high / medium guards in order. -/
def calculate_complexity (component_types : List String) : String :=
  let complexity_relevant_components :=
    component_types.filter (fun c => !(c ∈ utility_components : Bool))
  if complexity_relevant_components = [] then "Low"
  else if complexity_relevant_components.all
      (fun c => (c ∈ snowflake_components : Bool)) then "Low"
  else if complexity_relevant_components.any
      (fun c => (c ∈ high_complexity_components : Bool)) then "High"
  else "Medium"

/-- The function `categorize_database_usage(component_types)` from the source. -/
def categorize_database_usage (component_types : List String) : String :=
  let has_db2 := component_types.any (fun c => (c ∈ db2_components : Bool))
  let has_oracle :=
    component_types.any (fun c => (c ∈ oracle_components : Bool))
  let has_snowflake :=
    component_types.any (fun c => (c ∈ snowflake_components : Bool))
  if has_db2 && has_oracle then "DB2 + Oracle"
  else if has_db2 then "DB2 Only"
  else if has_oracle then "Oracle Only"
  else if has_snowflake then "Snowflake Only"
  else "Other/None"

/-- The dict `complexity_scores = {"Low": 1, "Medium": 3, "High": 5}`, read through
pandas `.map` (a missing key yields NaN, modelled as `none`). -/
def complexity_scores (c : String) : Option Nat :=
  if c = "Low" then some 1
  else if c = "Medium" then some 3
  else if c = "High" then some 5
  else none

/-- The dict `size_multipliers = {"Small": 1, "Medium": 2, "Large": 3, "XLarge": 4}`,
read through pandas `.map`. -/
def size_multipliers (s : String) : Option Nat :=
  if s = "Small" then some 1
  else if s = "Medium" then some 2
  else if s = "Large" then some 3
  else if s = "XLarge" then some 4
  else none

/-- A `file_analysis` row after the categorization and scoring columns have
been added (lines 139-150 of the source). -/
structure ClassifiedRecord where
  file : String
  component_count : Nat
  component_types : List String
  unique_components : Nat
  size_category : String
  complexity : String
  database_usage : String
  complexity_score : Option Nat
deriving Repr, DecidableEq

/-- Adding the `size_category`, `complexity`, `database_usage` and
`complexity_score` columns to `file_analysis`. -/
def classify (rows : List ComponentRow) : List ClassifiedRecord :=
  (file_analysis rows).map (fun r =>
    { file := r.file
      component_count := r.component_count
      component_types := r.component_types
      unique_components := r.unique_components
      size_category := categorize_size (r.component_count : Int)
      complexity := calculate_complexity r.component_types
      database_usage := categorize_database_usage r.component_types
      complexity_score := do
        let a ← complexity_scores (calculate_complexity r.component_types)
        let b ← size_multipliers (categorize_size (r.component_count : Int))
        pure (a * b) })

/-- The validated effort parameters of the calculator sidebar (four baseline
hours, three multipliers, developers, hours/day, days/week). -/
structure EffortParams where
  small_hours : ℚ
  medium_hours : ℚ
  large_hours : ℚ
  xlarge_hours : ℚ
  low_multiplier : ℚ
  medium_multiplier : ℚ
  high_multiplier : ℚ
  num_resources : ℚ
  hours_per_day : ℚ
  days_per_week : ℚ
deriving Repr, DecidableEq

/-- The dict `size_hours_map` from the source, read through pandas `.map`. -/
def size_hours_map (p : EffortParams) (s : String) : Option ℚ :=
  if s = "Small" then some p.small_hours
  else if s = "Medium" then some p.medium_hours
  else if s = "Large" then some p.large_hours
  else if s = "XLarge" then some p.xlarge_hours
  else none

/-- The dict `complexity_multiplier_map` from the source, read through pandas
`.map`. -/
def complexity_multiplier_map (p : EffortParams) (c : String) : Option ℚ :=
  if c = "Low" then some p.low_multiplier
  else if c = "Medium" then some p.medium_multiplier
  else if c = "High" then some p.high_multiplier
  else none

/-- The `estimated_hours` column:
`size_category.map(size_hours_map) * complexity.map(complexity_multiplier_map)`
(NaN-propagating product of two dict lookups). -/
def estimated_hours (p : EffortParams) (r : ClassifiedRecord) : Option ℚ := do
  let b ← size_hours_map p r.size_category
  let m ← complexity_multiplier_map p r.complexity
  pure (b * m)

/-- Total `total_hours = file_analysis['estimated_hours'].sum()`; pandas `sum`
skips NaN, so a `none` contributes `0`. -/
def total_hours (p : EffortParams) (rows : List ComponentRow) : ℚ :=
  ((classify rows).map (fun r => (estimated_hours p r).getD 0)).sum

/-- Total `total_days = total_hours / (num_resources * hours_per_day)`. -/
def total_days (p : EffortParams) (rows : List ComponentRow) : ℚ :=
  total_hours p rows / (p.num_resources * p.hours_per_day)

/-- Total `total_weeks = total_days / days_per_week`. -/
def total_weeks (p : EffortParams) (rows : List ComponentRow) : ℚ :=
  total_days p rows / p.days_per_week

/-- The raw values supplied to the ten `st.number_input` widgets. -/
structure RawParams where
  small_hours : ℚ
  medium_hours : ℚ
  large_hours : ℚ
  xlarge_hours : ℚ
  low_multiplier : ℚ
  medium_multiplier : ℚ
  high_multiplier : ℚ
  num_resources : ℚ
  hours_per_day : ℚ
  days_per_week : ℚ
deriving Repr, DecidableEq

/-- Model of `st.number_input(label, ..., min_value=m)`: a value below the minimum
cannot be returned by the widget; supplying one is a fatal parameter error
(Streamlit raises, and line 390 of the source catches it and shows the error
instead of any results). -/
def number_input (label : String) (value min_value : ℚ) : Except String ℚ :=
  if value < min_value then Except.error ("ParameterError: " ++ label)
  else Except.ok value

/-- Reading the ten calculator parameters with the minimums of the source
(`min_value=0.1` for hours and multipliers, `min_value=1` for developers,
hours per day and days per week). -/
def read_parameters (r : RawParams) : Except String EffortParams := do
  let sh ← number_input "Small files (hours)" r.small_hours (1/10)
  let mh ← number_input "Medium files (hours)" r.medium_hours (1/10)
  let lh ← number_input "Large files (hours)" r.large_hours (1/10)
  let xh ← number_input "XLarge files (hours)" r.xlarge_hours (1/10)
  let lm ← number_input "Low complexity multiplier" r.low_multiplier (1/10)
  let mm ← number_input "Medium complexity multiplier" r.medium_multiplier (1/10)
  let hm ← number_input "High complexity multiplier" r.high_multiplier (1/10)
  let nr ← number_input "Number of developers" r.num_resources 1
  let hpd ← number_input "Working hours per day" r.hours_per_day 1
  let dpw ← number_input "Working days per week" r.days_per_week 1
  pure ⟨sh, mh, lh, xh, lm, mm, hm, nr, hpd, dpw⟩

/-- The list `expected_columns = ['file', 'component_type', 'unique_name']`. -/
def expected_columns : List String :=
  ["file", "component_type", "unique_name"]

/-- Everything the run produces: the classified per-file records, the
per-file estimated hours, and the three aggregate totals. -/
structure PipelineOutput where
  records : List ClassifiedRecord
  estimated_hours_list : List (Option ℚ)
  total_hours : ℚ
  total_days : ℚ
  total_weeks : ℚ
deriving Repr, DecidableEq

/-- The full engine run: validate the columns (`st.stop()` on a missing one,
before any classification), classify, read the parameters, estimate. -/
def run_pipeline (columns : List String) (rows : List ComponentRow)
    (raw : RawParams) : Except String PipelineOutput :=
  if expected_columns.all (fun c => (c ∈ columns : Bool)) then do
    let p ← read_parameters raw
    Except.ok
      { records := classify rows
        estimated_hours_list := (classify rows).map (estimated_hours p)
        total_hours := total_hours p rows
        total_days := total_days p rows
        total_weeks := total_weeks p rows }
  else Except.error "SchemaError: CSV must contain columns file, component_type, unique_name"

/-- The complexity rules as the spec words them: a priority-ordered decision
list over the set `T` of component types — subtract the utility components,
then Low if empty, Low if a subset of the snowflake components, High if the
remainder intersects the high-complexity components, else Medium. -/
def complexitySpec (T : Finset String) : String :=
  if T \ utility_components.toFinset = ∅ then "Low"
  else if T \ utility_components.toFinset ⊆ snowflake_components.toFinset then
    "Low"
  else if ((T \ utility_components.toFinset) ∩
      high_complexity_components.toFinset).Nonempty then "High"
  else "Medium"

/-- The database-usage rules as the spec words them: membership tests on the
raw set `T` (no utility subtraction), with DB2-and-Oracle dominating. -/
def databaseUsageSpec (T : Finset String) : String :=
  if (T ∩ db2_components.toFinset).Nonempty ∧
      (T ∩ oracle_components.toFinset).Nonempty then "DB2 + Oracle"
  else if (T ∩ db2_components.toFinset).Nonempty then "DB2 Only"
  else if (T ∩ oracle_components.toFinset).Nonempty then "Oracle Only"
  else if (T ∩ snowflake_components.toFinset).Nonempty then "Snowflake Only"
  else "Other/None"

/-- The fixed complexity weights the spec states for the scorer. -/
def complexityWeightSpec (c : String) : Nat :=
  if c = "Low" then 1 else if c = "Medium" then 3 else 5

/-- The fixed size weights the spec states for the scorer. -/
def sizeWeightSpec (s : String) : Nat :=
  if s = "Small" then 1
  else if s = "Medium" then 2
  else if s = "Large" then 3
  else 4

/-- The caller-supplied baseline hours as a total map on the four size
categories, as the spec words it. -/
def baselineHoursSpec (p : EffortParams) (s : String) : ℚ :=
  if s = "Small" then p.small_hours
  else if s = "Medium" then p.medium_hours
  else if s = "Large" then p.large_hours
  else p.xlarge_hours

/-- The caller-supplied complexity multipliers as a total map on the three
complexity levels, as the spec words it. -/
def multiplierSpec (p : EffortParams) (c : String) : ℚ :=
  if c = "Low" then p.low_multiplier
  else if c = "Medium" then p.medium_multiplier
  else p.high_multiplier

/-- The example rows shown below the uploader in the source. -/
def exampleRows : List ComponentRow :=
  [⟨"job1.kjb", "tMap", "tMap_1"⟩,
   ⟨"job1.kjb", "tSnowflakeOutput", "tSnowflakeOutput_1"⟩,
   ⟨"job2.kjb", "tRunJob", "tRunJob_1"⟩,
   ⟨"job2.kjb", "tMap", "tMap_2"⟩,
   ⟨"job3.kjb", "tSnowflakeInput", "tSnowflakeInput_1"⟩]

/-- The default calculator parameters of the source (0.8 and 1.5 written as
rationals). -/
def defaultParams : EffortParams :=
  ⟨8, 16, 32, 64, 4/5, 1, 3/2, 3, 8, 5⟩

/-- The default calculator parameters as raw widget values. -/
def defaultRawParams : RawParams :=
  ⟨8, 16, 32, 64, 4/5, 1, 3/2, 3, 8, 5⟩

/-- The classified record the engine produces for `job3.kjb` of the example
rows. -/
def exampleRecord : ClassifiedRecord :=
  ⟨"job3.kjb", 1, ["tSnowflakeInput"], 1, "Small", "Low", "Snowflake Only",
    some 1⟩

lemma filter_utility_eq_nil_iff (T : List String) :
    T.filter (fun c => !(c ∈ utility_components : Bool)) = [] ↔
    T.toFinset \ utility_components.toFinset = ∅ := by
  simp [List.filter_eq_nil_iff, Finset.sdiff_eq_empty_iff_subset,
    Finset.subset_iff]

lemma filter_utility_all_snowflake_iff (T : List String) :
    (T.filter (fun c => !(c ∈ utility_components : Bool))).all
      (fun c => (c ∈ snowflake_components : Bool)) = true ↔
    T.toFinset \ utility_components.toFinset ⊆
      snowflake_components.toFinset := by
  rw [List.all_eq_true]
  constructor
  · intro h x hx
    rw [Finset.mem_sdiff, List.mem_toFinset, List.mem_toFinset] at hx
    rw [List.mem_toFinset]
    have := h x (List.mem_filter.mpr ⟨hx.1, by simpa using hx.2⟩)
    simpa using this
  · intro h x hx
    rw [List.mem_filter] at hx
    have hx2 : x ∈ T.toFinset \ utility_components.toFinset := by
      rw [Finset.mem_sdiff, List.mem_toFinset, List.mem_toFinset]
      exact ⟨hx.1, by simpa using hx.2⟩
    simpa using h hx2

lemma filter_utility_any_high_iff (T : List String) :
    (T.filter (fun c => !(c ∈ utility_components : Bool))).any
      (fun c => (c ∈ high_complexity_components : Bool)) = true ↔
    ((T.toFinset \ utility_components.toFinset) ∩
      high_complexity_components.toFinset).Nonempty := by
  simp [List.any_eq_true, List.mem_filter, Finset.Nonempty,
    Finset.mem_inter, Finset.mem_sdiff]
  tauto

/-- C1: `calculate_complexity` implements the spec's priority-ordered
decision list over the set of component types: subtract the utility
components to get `relevant`; Low if `relevant` is empty; Low if `relevant`
is a subset of the snowflake components; High if `relevant` intersects the
high-complexity components; Medium otherwise.  In particular, whenever the
utility-subtracted remainder is empty or a subset of the snowflake
components, the result is Low. -/
theorem calculate_complexity_decision_list (T : List String) :
    calculate_complexity T = complexitySpec T.toFinset ∧
    ((T.toFinset \ utility_components.toFinset = ∅ ∨
      T.toFinset \ utility_components.toFinset ⊆
        snowflake_components.toFinset) →
      calculate_complexity T = "Low") := by
  have hmain : calculate_complexity T = complexitySpec T.toFinset := by
    unfold calculate_complexity complexitySpec
    by_cases e1 : T.toFinset \ utility_components.toFinset = ∅
    · rw [if_pos ((filter_utility_eq_nil_iff T).mpr e1), if_pos e1]
    · rw [if_neg (fun h => e1 ((filter_utility_eq_nil_iff T).mp h)),
        if_neg e1]
      by_cases e2 : T.toFinset \ utility_components.toFinset ⊆
          snowflake_components.toFinset
      · rw [if_pos ((filter_utility_all_snowflake_iff T).mpr e2), if_pos e2]
      · rw [if_neg (fun h => e2 ((filter_utility_all_snowflake_iff T).mp h)),
          if_neg e2]
        by_cases e3 : ((T.toFinset \ utility_components.toFinset) ∩
            high_complexity_components.toFinset).Nonempty
        · rw [if_pos ((filter_utility_any_high_iff T).mpr e3), if_pos e3]
        · rw [if_neg (fun h => e3 ((filter_utility_any_high_iff T).mp h)),
            if_neg e3]
  refine ⟨hmain, fun h => ?_⟩
  rw [hmain]
  unfold complexitySpec
  rcases h with h | h
  · rw [if_pos h]
  · by_cases e1 : T.toFinset \ utility_components.toFinset = ∅
    · rw [if_pos e1]
    · rw [if_neg e1, if_pos h]

/-- Closed instance of C1: the pure-utility-plus-snowflake file
`{tDie, tMap, tSnowflakeInput}` is classified Low. -/
theorem calculate_complexity_decision_list_witness :
    calculate_complexity ["tDie", "tMap", "tSnowflakeInput"] = "Low" :=
  (calculate_complexity_decision_list
    ["tDie", "tMap", "tSnowflakeInput"]).2 (Or.inr (by decide))

/-- C2: `categorize_size` is boundary-exact — Small iff the count is below
10, Medium iff in `[10, 20)`, Large iff in `[20, 40)`, XLarge iff at least
40; so each boundary value (10, 20, 40) lands in the higher bucket. -/
theorem categorize_size_boundaries (c : Int) :
    (categorize_size c = "Small" ↔ c < 10) ∧
    (categorize_size c = "Medium" ↔ 10 ≤ c ∧ c < 20) ∧
    (categorize_size c = "Large" ↔ 20 ≤ c ∧ c < 40) ∧
    (categorize_size c = "XLarge" ↔ 40 ≤ c) := by
  unfold categorize_size
  split_ifs with h1 h2 h3 <;>
    refine ⟨⟨?_, ?_⟩, ⟨?_, ?_⟩, ⟨?_, ?_⟩, ⟨?_, ?_⟩⟩ <;>
    simp_all <;> omega

/-- C3: `categorize_database_usage` matches the spec's precedence list over
the raw type set: DB2-and-Oracle first (even when snowflake components are
also present), then DB2 only, Oracle only, Snowflake only, Other/None. -/
theorem categorize_database_usage_precedence (T : List String) :
    categorize_database_usage T = databaseUsageSpec T.toFinset := by
  have hdb2 : T.any (fun c => (c ∈ db2_components : Bool)) = true ↔
      (T.toFinset ∩ db2_components.toFinset).Nonempty := by
    simp [List.any_eq_true, Finset.Nonempty, Finset.mem_inter]
  have hora : T.any (fun c => (c ∈ oracle_components : Bool)) = true ↔
      (T.toFinset ∩ oracle_components.toFinset).Nonempty := by
    simp [List.any_eq_true, Finset.Nonempty, Finset.mem_inter]
  have hsnow : T.any (fun c => (c ∈ snowflake_components : Bool)) = true ↔
      (T.toFinset ∩ snowflake_components.toFinset).Nonempty := by
    simp [List.any_eq_true, Finset.Nonempty, Finset.mem_inter]
  unfold categorize_database_usage databaseUsageSpec
  by_cases e1 : (T.toFinset ∩ db2_components.toFinset).Nonempty <;>
    by_cases e2 : (T.toFinset ∩ oracle_components.toFinset).Nonempty <;>
    by_cases e3 : (T.toFinset ∩ snowflake_components.toFinset).Nonempty <;>
    simp [hdb2.mpr, hora.mpr, hsnow.mpr, e1, e2, e3, hdb2, hora, hsnow]

example : calculate_complexity ["tMap", "tSnowflakeOutput"] = "Low" := by decide
example : calculate_complexity ["tRunJob", "tMap"] = "High" := by decide
example : calculate_complexity ["tDie", "tWarn"] = "Low" := by decide
example : calculate_complexity ["tXMLMap"] = "Medium" := by decide
example : categorize_database_usage ["tDB2Input", "tOracleRow", "tMap"] =
    "DB2 + Oracle" := by decide
example : categorize_size 10 = "Medium" := by decide
example : file_analysis
    [⟨"a.kjb", "tMap", "tMap_1"⟩, ⟨"a.kjb", "tMap", "tMap_2"⟩] =
    [⟨"a.kjb", 2, ["tMap"], 2⟩] := by decide

lemma calculate_complexity_range (T : List String) :
    calculate_complexity T = "Low" ∨ calculate_complexity T = "Medium" ∨
      calculate_complexity T = "High" := by
  simp only [calculate_complexity]
  split_ifs <;> simp

lemma categorize_size_range (c : Int) :
    categorize_size c = "Small" ∨ categorize_size c = "Medium" ∨
      categorize_size c = "Large" ∨ categorize_size c = "XLarge" := by
  unfold categorize_size
  split_ifs <;> simp

lemma classify_fields (rows : List ComponentRow) (r : ClassifiedRecord)
    (h : r ∈ classify rows) :
    r.size_category = categorize_size (r.component_count : Int) ∧
    r.complexity = calculate_complexity r.component_types ∧
    r.complexity_score = (do
      let a ← complexity_scores r.complexity
      let b ← size_multipliers r.size_category
      pure (a * b)) := by
  unfold classify at h
  obtain ⟨a, -, rfl⟩ := List.mem_map.mp h
  exact ⟨rfl, rfl, rfl⟩

lemma score_formula (c s : String)
    (hc : c = "Low" ∨ c = "Medium" ∨ c = "High")
    (hs : s = "Small" ∨ s = "Medium" ∨ s = "Large" ∨ s = "XLarge") :
    (do
      let a ← complexity_scores c
      let b ← size_multipliers s
      pure (a * b) : Option Nat) =
      some (complexityWeightSpec c * sizeWeightSpec s) := by
  rcases hc with rfl | rfl | rfl <;> rcases hs with rfl | rfl | rfl | rfl <;>
    rfl

/-- C4: every classified record's `complexity_score` is exactly the product
of the fixed complexity weight (Low 1, Medium 3, High 5) and the fixed size
weight (Small 1, Medium 2, Large 3, XLarge 4); hence any two records that
agree on `size_category` and on `complexity` receive the same score. -/
theorem complexity_score_weight_product
    (rows rows2 : List ComponentRow) (r r2 : ClassifiedRecord)
    (h : r ∈ classify rows) (h2 : r2 ∈ classify rows2) :
    r.complexity_score =
      some (complexityWeightSpec r.complexity *
        sizeWeightSpec r.size_category) ∧
    (r.size_category = r2.size_category → r.complexity = r2.complexity →
      r.complexity_score = r2.complexity_score) := by
  obtain ⟨hs, hc, hscore⟩ := classify_fields rows r h
  obtain ⟨hs2, hc2, hscore2⟩ := classify_fields rows2 r2 h2
  have e1 : r.complexity_score =
      some (complexityWeightSpec r.complexity *
        sizeWeightSpec r.size_category) := by
    rw [hscore]
    exact score_formula _ _ (by rw [hc]; exact calculate_complexity_range _)
      (by rw [hs]; exact categorize_size_range _)
  have e2 : r2.complexity_score =
      some (complexityWeightSpec r2.complexity *
        sizeWeightSpec r2.size_category) := by
    rw [hscore2]
    exact score_formula _ _ (by rw [hc2]; exact calculate_complexity_range _)
      (by rw [hs2]; exact categorize_size_range _)
  refine ⟨e1, fun hss hcc => ?_⟩
  rw [e1, e2, hss, hcc]

/-- Closed instance of C4 at the example input. -/
theorem complexity_score_weight_product_witness :
    exampleRecord.complexity_score =
      some (complexityWeightSpec exampleRecord.complexity *
        sizeWeightSpec exampleRecord.size_category) :=
  (complexity_score_weight_product exampleRows exampleRows exampleRecord
    exampleRecord (by decide) (by decide)).1

lemma estimated_hours_formula (p : EffortParams) (r : ClassifiedRecord)
    (hcr : r.complexity = "Low" ∨ r.complexity = "Medium" ∨
      r.complexity = "High")
    (hsr : r.size_category = "Small" ∨ r.size_category = "Medium" ∨
      r.size_category = "Large" ∨ r.size_category = "XLarge") :
    estimated_hours p r =
      some (baselineHoursSpec p r.size_category *
        multiplierSpec p r.complexity) := by
  unfold estimated_hours size_hours_map complexity_multiplier_map
    baselineHoursSpec multiplierSpec
  rcases hsr with h | h | h | h <;> rcases hcr with h2 | h2 | h2 <;>
    rw [h, h2] <;> rfl

/-- C5: per record, `estimated_hours` is the caller-supplied baseline hours
for its size category times the caller-supplied multiplier for its
complexity, and the aggregates satisfy `total_hours = Σ estimated_hours`,
`total_days = total_hours / (developers × hours_per_day)` and
`total_weeks = total_days / days_per_week`. -/
theorem effort_estimation_formulas (p : EffortParams)
    (rows : List ComponentRow) :
    (∀ r ∈ classify rows, estimated_hours p r =
      some (baselineHoursSpec p r.size_category *
        multiplierSpec p r.complexity)) ∧
    total_hours p rows = ((classify rows).map (fun r =>
      baselineHoursSpec p r.size_category *
        multiplierSpec p r.complexity)).sum ∧
    total_days p rows =
      total_hours p rows / (p.num_resources * p.hours_per_day) ∧
    total_weeks p rows = total_days p rows / p.days_per_week := by
  have hpt : ∀ r ∈ classify rows, estimated_hours p r =
      some (baselineHoursSpec p r.size_category *
        multiplierSpec p r.complexity) := by
    intro r hr
    obtain ⟨hs, hc, -⟩ := classify_fields rows r hr
    exact estimated_hours_formula p r
      (by rw [hc]; exact calculate_complexity_range _)
      (by rw [hs]; exact categorize_size_range _)
  refine ⟨hpt, ?_, rfl, rfl⟩
  unfold total_hours
  refine congrArg List.sum (List.map_congr_left ?_)
  intro r hr
  rw [hpt r hr]
  rfl

/-- Closed instance of C5 at the example input and default parameters. -/
theorem effort_estimation_formulas_witness :
    total_days defaultParams exampleRows =
      total_hours defaultParams exampleRows /
        (defaultParams.num_resources * defaultParams.hours_per_day) :=
  (effort_estimation_formulas defaultParams exampleRows).2.2.1

/-- C6: with nonnegative parameters, raising the baseline-hours and
multiplier parameters pointwise — in particular raising any single one of
them while holding the others fixed — never decreases `total_hours`. -/
theorem total_hours_monotone (rows : List ComponentRow) (p q : EffortParams)
    (hp1 : 0 ≤ p.small_hours) (hp2 : 0 ≤ p.medium_hours)
    (hp3 : 0 ≤ p.large_hours) (hp4 : 0 ≤ p.xlarge_hours)
    (hp5 : 0 ≤ p.low_multiplier) (hp6 : 0 ≤ p.medium_multiplier)
    (hp7 : 0 ≤ p.high_multiplier)
    (h1 : p.small_hours ≤ q.small_hours)
    (h2 : p.medium_hours ≤ q.medium_hours)
    (h3 : p.large_hours ≤ q.large_hours)
    (h4 : p.xlarge_hours ≤ q.xlarge_hours)
    (h5 : p.low_multiplier ≤ q.low_multiplier)
    (h6 : p.medium_multiplier ≤ q.medium_multiplier)
    (h7 : p.high_multiplier ≤ q.high_multiplier) :
    total_hours p rows ≤ total_hours q rows := by
  unfold total_hours
  apply List.sum_le_sum
  intro r hr
  unfold estimated_hours size_hours_map complexity_multiplier_map
  split_ifs <;> simp <;> apply mul_le_mul <;>
    first
      | assumption
      | linarith

/-- Closed instance of C6: doubling every baseline and multiplier does not
decrease the total at the example input. -/
theorem total_hours_monotone_witness :
    total_hours ⟨1, 1, 1, 1, 1, 1, 1, 3, 8, 5⟩ exampleRows ≤
      total_hours ⟨2, 2, 2, 2, 2, 2, 2, 3, 8, 5⟩ exampleRows :=
  total_hours_monotone exampleRows ⟨1, 1, 1, 1, 1, 1, 1, 3, 8, 5⟩
    ⟨2, 2, 2, 2, 2, 2, 2, 3, 8, 5⟩ (by norm_num) (by norm_num) (by norm_num)
    (by norm_num) (by norm_num) (by norm_num) (by norm_num) (by norm_num)
    (by norm_num) (by norm_num) (by norm_num) (by norm_num) (by norm_num)
    (by norm_num)

lemma except_bind_ok {α β : Type} (x : Except String α)
    (f : α → Except String β) (b : β) (h : (x >>= f) = Except.ok b) :
    ∃ a, x = Except.ok a ∧ f a = Except.ok b := by
  cases x with
  | error e => simp [bind, Except.bind] at h
  | ok a => exact ⟨a, rfl, by simpa [bind, Except.bind] using h⟩

lemma number_input_ok (label : String) (v m x : ℚ)
    (h : number_input label v m = Except.ok x) : m ≤ v ∧ x = v := by
  unfold number_input at h
  split_ifs at h with hc
  exact ⟨le_of_not_lt hc, (Except.ok.inj h).symm⟩

lemma read_parameters_ok_inv (r : RawParams) (p : EffortParams)
    (h : read_parameters r = Except.ok p) :
    p = ⟨r.small_hours, r.medium_hours, r.large_hours, r.xlarge_hours,
      r.low_multiplier, r.medium_multiplier, r.high_multiplier,
      r.num_resources, r.hours_per_day, r.days_per_week⟩ ∧
    1/10 ≤ r.small_hours ∧ 1/10 ≤ r.medium_hours ∧ 1/10 ≤ r.large_hours ∧
    1/10 ≤ r.xlarge_hours ∧ 1/10 ≤ r.low_multiplier ∧
    1/10 ≤ r.medium_multiplier ∧ 1/10 ≤ r.high_multiplier ∧
    1 ≤ r.num_resources ∧ 1 ≤ r.hours_per_day ∧ 1 ≤ r.days_per_week := by
  unfold read_parameters at h
  obtain ⟨sh, hsh, h⟩ := except_bind_ok _ _ _ h
  obtain ⟨mh, hmh, h⟩ := except_bind_ok _ _ _ h
  obtain ⟨lh, hlh, h⟩ := except_bind_ok _ _ _ h
  obtain ⟨xh, hxh, h⟩ := except_bind_ok _ _ _ h
  obtain ⟨lm, hlm, h⟩ := except_bind_ok _ _ _ h
  obtain ⟨mm, hmm, h⟩ := except_bind_ok _ _ _ h
  obtain ⟨hm, hhm, h⟩ := except_bind_ok _ _ _ h
  obtain ⟨nr, hnr, h⟩ := except_bind_ok _ _ _ h
  obtain ⟨hpd, hhpd, h⟩ := except_bind_ok _ _ _ h
  obtain ⟨dpw, hdpw, h⟩ := except_bind_ok _ _ _ h
  obtain ⟨b1, rfl⟩ := number_input_ok _ _ _ _ hsh
  obtain ⟨b2, rfl⟩ := number_input_ok _ _ _ _ hmh
  obtain ⟨b3, rfl⟩ := number_input_ok _ _ _ _ hlh
  obtain ⟨b4, rfl⟩ := number_input_ok _ _ _ _ hxh
  obtain ⟨b5, rfl⟩ := number_input_ok _ _ _ _ hlm
  obtain ⟨b6, rfl⟩ := number_input_ok _ _ _ _ hmm
  obtain ⟨b7, rfl⟩ := number_input_ok _ _ _ _ hhm
  obtain ⟨b8, rfl⟩ := number_input_ok _ _ _ _ hnr
  obtain ⟨b9, rfl⟩ := number_input_ok _ _ _ _ hhpd
  obtain ⟨b10, rfl⟩ := number_input_ok _ _ _ _ hdpw
  exact ⟨(Except.ok.inj h).symm, b1, b2, b3, b4, b5, b6, b7, b8, b9, b10⟩

/-- C7: a nonpositive value for any calculator parameter — in particular
developers = 0 — is rejected as a parameter error: reading the parameters
yields an error, any parameters that are accepted are positive (so the
`total_days` denominator is positive; no infinite or NaN result), and the
pipeline run itself aborts with an error before estimation. -/
theorem parameter_error_on_nonpositive (r : RawParams) :
    ((r.small_hours ≤ 0 ∨ r.medium_hours ≤ 0 ∨ r.large_hours ≤ 0 ∨
      r.xlarge_hours ≤ 0 ∨ r.low_multiplier ≤ 0 ∨
      r.medium_multiplier ≤ 0 ∨ r.high_multiplier ≤ 0 ∨
      r.num_resources ≤ 0 ∨ r.hours_per_day ≤ 0 ∨ r.days_per_week ≤ 0) →
      ∃ e, read_parameters r = Except.error e) ∧
    (∀ p, read_parameters r = Except.ok p →
      0 < p.num_resources * p.hours_per_day ∧ 0 < p.days_per_week) ∧
    (∀ columns rows, r.num_resources ≤ 0 →
      ∃ e, run_pipeline columns rows r = Except.error e) := by
  have herr : (r.small_hours ≤ 0 ∨ r.medium_hours ≤ 0 ∨
      r.large_hours ≤ 0 ∨ r.xlarge_hours ≤ 0 ∨ r.low_multiplier ≤ 0 ∨
      r.medium_multiplier ≤ 0 ∨ r.high_multiplier ≤ 0 ∨
      r.num_resources ≤ 0 ∨ r.hours_per_day ≤ 0 ∨ r.days_per_week ≤ 0) →
      ∃ e, read_parameters r = Except.error e := by
    intro hle
    cases hok : read_parameters r with
    | error e => exact ⟨e, rfl⟩
    | ok p =>
      obtain ⟨-, b1, b2, b3, b4, b5, b6, b7, b8, b9, b10⟩ :=
        read_parameters_ok_inv r p hok
      rcases hle with h | h | h | h | h | h | h | h | h | h <;> linarith
  refine ⟨herr, ?_, ?_⟩
  · intro p hok
    obtain ⟨rfl, b1, b2, b3, b4, b5, b6, b7, b8, b9, b10⟩ :=
      read_parameters_ok_inv r p hok
    refine ⟨mul_pos (by linarith) (by linarith), by linarith⟩
  · intro columns rows hle
    obtain ⟨e, he⟩ := herr (Or.inr (Or.inr (Or.inr (Or.inr (Or.inr (Or.inr
      (Or.inr (Or.inl hle))))))))
    unfold run_pipeline
    split_ifs
    · exact ⟨e, by rw [he]; rfl⟩
    · exact ⟨_, rfl⟩

/-- Closed instance of C7: developers = 0 with default values elsewhere is
rejected when the parameters are read. -/
theorem parameter_error_on_nonpositive_witness :
    ∃ e, read_parameters ⟨8, 16, 32, 64, 4/5, 1, 3/2, 0, 8, 5⟩ =
      Except.error e :=
  (parameter_error_on_nonpositive ⟨8, 16, 32, 64, 4/5, 1, 3/2, 0, 8, 5⟩).1
    (by norm_num)

/-- C8: a missing required column (`file`, `component_type` or
`unique_name`) makes the run fail with the schema error before any
classification — no records are produced — while an extra `index` column
changes nothing. -/
theorem schema_validation (columns : List String)
    (rows : List ComponentRow) (raw : RawParams) :
    ((¬ ∀ c ∈ expected_columns, c ∈ columns) →
      run_pipeline columns rows raw = Except.error
        "SchemaError: CSV must contain columns file, component_type, unique_name") ∧
    run_pipeline ("index" :: columns) rows raw =
      run_pipeline columns rows raw := by
  constructor
  · intro hmiss
    have hcond :
        ¬ ((expected_columns.all fun c => (c ∈ columns : Bool)) = true) := by
      intro hall
      exact hmiss (by simpa using List.all_eq_true.mp hall)
    unfold run_pipeline
    rw [if_neg hcond]
  · have hiff :
        (expected_columns.all fun c => (c ∈ "index" :: columns : Bool)) =
        (expected_columns.all fun c => (c ∈ columns : Bool)) := by
      simp [expected_columns, List.mem_cons]
    unfold run_pipeline
    rw [hiff]

/-- Closed instance of C8: dropping the `component_type` column yields the
schema error. -/
theorem schema_validation_witness :
    run_pipeline ["file", "unique_name"] exampleRows defaultRawParams =
      Except.error
        "SchemaError: CSV must contain columns file, component_type, unique_name" :=
  (schema_validation ["file", "unique_name"] exampleRows
    defaultRawParams).1 (by decide)

/-- C9: the pipeline is deterministic — a pure function of the input rows
and the parameters: two runs on identical inputs produce identical records
and totals. -/
theorem pipeline_deterministic (columns : List String)
    (rows : List ComponentRow) (raw : RawParams)
    (o1 o2 : Except String PipelineOutput)
    (h1 : run_pipeline columns rows raw = o1)
    (h2 : run_pipeline columns rows raw = o2) : o1 = o2 := by
  rw [← h1, ← h2]

/-- Closed instance of C9 at the example input. -/
theorem pipeline_deterministic_witness :
    run_pipeline ["file", "component_type", "unique_name"] exampleRows
        defaultRawParams =
      run_pipeline ["file", "component_type", "unique_name"] exampleRows
        defaultRawParams :=
  pipeline_deterministic ["file", "component_type", "unique_name"]
    exampleRows defaultRawParams _ _ rfl rfl

lemma uniqueAux_length_le (l : List String) :
    ∀ seen, (uniqueAux l seen).length ≤ l.length := by
  induction l with
  | nil => intro seen; simp [uniqueAux]
  | cons x xs ih =>
    intro seen
    unfold uniqueAux
    split_ifs
    · exact (ih seen).trans (Nat.le_succ _)
    · simpa using Nat.succ_le_succ (ih (x :: seen))

lemma uniqueAux_mem (a : String) (l : List String) :
    ∀ seen, a ∈ uniqueAux l seen → a ∈ l := by
  induction l with
  | nil => intro seen h; simp [uniqueAux] at h
  | cons x xs ih =>
    intro seen h
    unfold uniqueAux at h
    split_ifs at h
    · exact List.mem_cons_of_mem _ (ih seen h)
    · rcases List.mem_cons.mp h with rfl | h2
      · exact List.mem_cons_self _ _
      · exact List.mem_cons_of_mem _ (ih _ h2)

lemma uniqueList_ne_nil (l : List String) (h : l ≠ []) :
    uniqueList l ≠ [] := by
  cases l with
  | nil => exact absurd rfl h
  | cons x xs => simp [uniqueList, uniqueAux]

/-- C10: every aggregated file record comes from a file with at least one
input row, so `1 ≤ |component_types| ≤ component_count`; in particular the
component count is never 0 and every downstream classification is
defined. -/
theorem file_record_counts (rows : List ComponentRow)
    (rec : FileAnalysisRecord) (h : rec ∈ file_analysis rows) :
    1 ≤ rec.component_types.length ∧
    rec.component_types.length ≤ rec.component_count := by
  unfold file_analysis at h
  obtain ⟨f, hf, rfl⟩ := List.mem_map.mp h
  constructor
  · have hfm : f ∈ rows.map (fun r => r.file) := uniqueAux_mem f _ [] hf
    obtain ⟨r0, hr0, hr0f⟩ := List.mem_map.mp hfm
    have hmem : r0 ∈ rows.filter (fun r => r.file = f) :=
      List.mem_filter.mpr ⟨hr0, by simp [hr0f]⟩
    have hne : (rows.filter (fun r => r.file = f)).map
        (fun r => r.component_type) ≠ [] := by
      intro hnil
      rw [List.map_eq_nil_iff] at hnil
      rw [hnil] at hmem
      exact List.not_mem_nil _ hmem
    have hne2 := uniqueList_ne_nil _ hne
    show 1 ≤ (uniqueList ((rows.filter (fun r => r.file = f)).map
      (fun r => r.component_type))).length
    exact Nat.one_le_iff_ne_zero.mpr
      (by simpa [List.length_eq_zero] using hne2)
  · show (uniqueList ((rows.filter (fun r => r.file = f)).map
        (fun r => r.component_type))).length ≤
      (rows.filter (fun r => r.file = f)).length
    calc (uniqueList ((rows.filter (fun r => r.file = f)).map
          (fun r => r.component_type))).length
        ≤ ((rows.filter (fun r => r.file = f)).map
          (fun r => r.component_type)).length := uniqueAux_length_le _ _
      _ = (rows.filter (fun r => r.file = f)).length := List.length_map _ _

/-- Closed instance of C10 on a two-row one-file input. -/
theorem file_record_counts_witness :
    1 ≤ (FileAnalysisRecord.mk "a.kjb" 2 ["tMap"] 2).component_types.length ∧
      (FileAnalysisRecord.mk "a.kjb" 2
        ["tMap"] 2).component_types.length ≤
        (FileAnalysisRecord.mk "a.kjb" 2 ["tMap"] 2).component_count :=
  file_record_counts
    [⟨"a.kjb", "tMap", "tMap_1"⟩, ⟨"a.kjb", "tMap", "tMap_2"⟩]
    ⟨"a.kjb", 2, ["tMap"], 2⟩ (by decide)
